import Mathlib

/- Verification development for the Azure web app deployment-slot
   reconciliation module (library/azure_rm_webapp_slot.py).

   The module is shallowly embedded below: Python dictionaries become
   association lists over strings, the SDK gateway becomes an environment
   record of pre-fetched responses plus a trace of gateway calls, and the
   main `exec_module` orchestration becomes a pure function from the module
   input and the environment to an outcome and a call trace.

   Two slips of the source are normalized in the embedding, since the claims
   do not concern them: the free Python names `is_linux` and
   `old_plan` (never bound in the source file) are modelled as the parent
   application linux flag supplied by the environment, and the stray
   indentation of the check-mode test inside the swap block is read as the
   evident block structure (matching the three sibling check-mode tests). -/

namespace WebAppSlot

/-- Python string-keyed dictionaries, as association lists (insertion order
preserved, keys unique in every dictionary the source builds). -/
abbrev SMap := List (String × String)

/-- Python `d.get(k)`: the value at the first matching key, if any. -/
def dget (m : SMap) (k : String) : Option String :=
  match m with
  | [] => none
  | (a, b) :: t => if a = k then some b else dget t k

/-- Python `d.get(k, default)`. -/
def dgetD (m : SMap) (k d : String) : String :=
  (dget m k).getD d

/-- Python `d[k] = v`: overwrite in place if the key exists, else append. -/
def dinsert (m : SMap) (k v : String) : SMap :=
  match m with
  | [] => [(k, v)]
  | (a, b) :: t => if a = k then (a, v) :: t else (a, b) :: dinsert t k v

/-- Python truthiness of an optional string: `None` and the empty string are
falsy. -/
def pyTruthy : Option String → Bool
  | none => false
  | some s => s ≠ ""

/-- ASCII upper-casing of one character, as Python str.upper acts on the
ASCII strings this module handles. -/
def asciiUpperChar (c : Char) : Char :=
  if 97 ≤ c.toNat ∧ c.toNat ≤ 122 then Char.ofNat (c.toNat - 32) else c

/-- ASCII lower-casing of one character, as Python str.lower acts on the
ASCII strings this module handles. -/
def asciiLowerChar (c : Char) : Char :=
  if 65 ≤ c.toNat ∧ c.toNat ≤ 90 then Char.ofNat (c.toNat + 32) else c

/-- Python str.upper for the ASCII strings of this module. -/
def pyUpper (s : String) : String := String.mk (s.data.map asciiUpperChar)

/-- Python str.lower for the ASCII strings of this module. -/
def pyLower (s : String) : String := String.mk (s.data.map asciiLowerChar)

/-- The nested `settings` sub-dictionary of a framework entry. -/
structure FrameworkSettings where
  java_container : String
  java_container_version : String

/-- One entry of the `frameworks` module parameter. -/
structure Framework where
  name : String
  version : String
  settings : Option FrameworkSettings

/-- The `container_settings` module parameter. -/
structure ContainerSettings where
  name : String
  registry_server_url : Option String
  registry_server_user : Option String
  registry_server_password : Option String

/-- The `swap.action` choices validated by the argument spec. -/
inductive SwapAction where
  | swap
  | preview
  | reset
deriving DecidableEq

/-- The `swap` module parameter. -/
structure SwapSpec where
  action : SwapAction
  target_slot : Option String

/-- A slot record as returned by the gateway (only the fields the
orchestration reads: `id` and `state`). -/
structure SlotRec where
  id : String
  state : String

/-- The value of `self.auto_swap_slot_name`, which in Python is `None`,
the literal `False`, or a string. -/
inductive PyAutoSwap where
  | noneV
  | falseV
  | strV (s : String)

/-- The observed site configuration object returned by
`get_configuration_slot`, with the attributes the diff engine reads plus
the per-framework version attributes it does not read. -/
structure ExistingConfig where
  net_framework_version : Option String
  java_version : Option String
  php_version : Option String
  python_version : Option String
  scm_type : Option String
  node_version : Option String
  ruby_version : Option String
  dotnetcore_version : Option String
  linux_fx_version : Option String
  auto_swap_slot_name : Option String

/-- One remote gateway call, as recorded in the trace. -/
inductive Call where
  | getResourceGroup
  | getWebapp
  | getSlot
  | getConfiguration
  | listAppSettings
  | createOrUpdateSlot
  | deleteSlot
  | setSlotState (st : String)
  | swapSlotWithProduction
  | swapSlotSlot (t : String)
  | applySlotConfigToProduction
  | applySlotConfigurationSlot (t : String)
  | resetProductionSlotConfig
  | resetSlotConfigurationSlot (t : String)
deriving DecidableEq

/-- The outcome of one invocation: the result record, or a fatal failure. -/
inductive Outcome where
  | ok (changed : Bool) (id : Option String)
  | failed (msg : String)
deriving DecidableEq

/-- Result of a run: the outcome and the ordered trace of gateway calls. -/
structure ExecResult where
  outcome : Outcome
  calls : List Call

/-- The validated module input (the parameters `exec_module` reads). -/
structure ModuleInput where
  state : String
  checkMode : Bool
  frameworks : Option (List Framework)
  container_settings : Option ContainerSettings
  app_settings : SMap
  purge_app_settings : Bool
  app_state : String
  swap : Option SwapSpec
  scm_type : Option String
  slotName : String

/-- The remote environment: the responses the gateway returns during one
invocation, plus the parent linux flag and the external tag-diff verdict. -/
structure Env where
  webappExists : Bool
  slotResponse : Option SlotRec
  is_linux : Bool
  oldConfig : ExistingConfig
  oldSettings : SMap
  tagsChanged : Bool
  createdSlot : SlotRec

/-- `supported_linux_frameworks` from the source. -/
def supported_linux_frameworks : List String :=
  ["ruby", "php", "dotnetcore", "node", "java"]

/-- `supported_windows_frameworks` from the source. -/
def supported_windows_frameworks : List String :=
  ["net_framework", "php", "python", "node", "java"]

/-- `is_app_settings_changed` from the source: desired settings versus the
observed `properties` dictionary. Empty desired settings return false at
once; a count mismatch returns true; otherwise each desired key must be
present with a truthy, exactly equal value. -/
def is_app_settings_changed (app_settings props : SMap) : Bool :=
  if app_settings.isEmpty then false
  else if props.length ≠ app_settings.length then true
  else if props.isEmpty then false
  else app_settings.any fun kv =>
    match dget props kv.1 with
    | none => true
    | some v => if v = "" then true else if kv.2 = v then false else true

/-- One field comparison of the `is_site_config_changed` loop: a truthy
patch value differs from a falsy observed value, or case-insensitively from
a truthy one. -/
def fx_field_changed (patchVal existVal : Option String) : Bool :=
  match patchVal with
  | none => false
  | some p =>
    if p = "" then false
    else match existVal with
      | none => true
      | some e => if e = "" then true else pyUpper e ≠ pyUpper p

/-- The auto-swap comparison at the end of `is_site_config_changed`:
a `False` request needs a change when the observed target is not `None`;
a truthy string request needs a change when it differs from the observed
target. -/
def auto_swap_changed (asw : PyAutoSwap) (ex : ExistingConfig) : Bool :=
  match asw with
  | .falseV => ex.auto_swap_slot_name.isSome
  | .noneV => false
  | .strV s => if s = "" then false else some s ≠ ex.auto_swap_slot_name

/-- `is_site_config_changed` from the source: the loop over the five
updatable framework-version fields of `site_config_updatable_frameworks`,
followed by the auto-swap comparison. -/
def is_site_config_changed (sc : SMap) (asw : PyAutoSwap) (ex : ExistingConfig) : Bool :=
  fx_field_changed (dget sc "net_framework_version") ex.net_framework_version
  || fx_field_changed (dget sc "java_version") ex.java_version
  || fx_field_changed (dget sc "php_version") ex.php_version
  || fx_field_changed (dget sc "python_version") ex.python_version
  || fx_field_changed (dget sc "scm_type") ex.scm_type
  || auto_swap_changed asw ex

/-- The separate `linux_fx_version` comparison of `exec_module`: the
observed attribute against the patch value with default empty string.
A `None` observed attribute always compares unequal. -/
def linux_fx_changed (sc : SMap) (ex : ExistingConfig) : Bool :=
  match ex.linux_fx_version with
  | none => true
  | some s => s ≠ dgetD sc "linux_fx_version" ""

/-- The frameworks section of `exec_module` (validation plus site-config
normalization), threaded over the accumulated `site_config` dictionary. -/
def normalize_frameworks (sc : SMap) (fws : List Framework) (is_linux : Bool) :
    Except String SMap :=
  if fws.length > 1 && fws.any (fun f => f.name = "java") then
    .error "Java is mutually exclusive with other frameworks."
  else if is_linux then
    match fws with
    | [f] =>
      if f.name ∉ supported_linux_frameworks then
        .error ("Unsupported framework " ++ f.name ++ " for Linux web app.")
      else
        let sc := dinsert sc "linux_fx_version" (pyUpper (f.name ++ "|" ++ f.version))
        if f.name = "java" then
          if f.version ≠ "8" then .error "Linux web app only supports java 8."
          else match f.settings with
            | some st =>
              if pyLower st.java_container ≠ "tomcat" then
                .error "Linux web app only supports tomcat container."
              else
                .ok (dinsert sc "linux_fx_version"
                      ("TOMCAT|" ++ st.java_container_version ++ "-jre8"))
            | none => .ok (dinsert sc "linux_fx_version" "JAVA|8-jre8")
        else .ok sc
    | _ => .error "Can specify one framework only for Linux web app."
  else
    fws.foldlM (fun sc f =>
      if f.name ∉ supported_windows_frameworks then
        .error ("Unsupported framework " ++ f.name ++ " for Windows web app.")
      else
        let sc := dinsert sc (f.name ++ "_version") f.version
        match f.settings with
        | some st =>
          .ok (dinsert (dinsert sc "java_container" st.java_container)
                "java_container_version" st.java_container_version)
        | none => .ok sc) sc

/-- The container-settings section of `exec_module`: build the docker
runtime descriptor and add the registry settings entries. -/
def apply_container_settings (sc appS : SMap) (c : ContainerSettings) :
    SMap × SMap :=
  let appS :=
    if pyTruthy c.registry_server_url then
      dinsert appS "DOCKER_REGISTRY_SERVER_URL"
        ("https://" ++ (c.registry_server_url.getD ""))
    else appS
  let fx := "DOCKER|"
    ++ (if pyTruthy c.registry_server_url then (c.registry_server_url.getD "") ++ "/" else "")
    ++ c.name
  let sc := dinsert sc "linux_fx_version" fx
  let appS :=
    if pyTruthy c.registry_server_user then
      dinsert appS "DOCKER_REGISTRY_SERVER_USERNAME" (c.registry_server_user.getD "")
    else appS
  let appS :=
    if pyTruthy c.registry_server_password then
      dinsert appS "DOCKER_REGISTRY_SERVER_PASSWORD" (c.registry_server_password.getD "")
    else appS
  (sc, appS)

/-- The whole configuration phase of `exec_module` for `state=present`:
seed `site_config` with `scm_type`, run the framework validation and
normalization, then the container settings. Returns the final
`site_config` and `app_settings` dictionaries. -/
def normalize_config (i : ModuleInput) (is_linux : Bool) :
    Except String (SMap × SMap) :=
  let sc0 : SMap := match i.scm_type with
    | some s => [("scm_type", s)]
    | none => []
  let step : Except String SMap := match i.frameworks with
    | some fws => if fws.isEmpty then .ok sc0 else normalize_frameworks sc0 fws is_linux
    | none => .ok sc0
  step.map fun sc =>
    match i.container_settings with
    | some c => apply_container_settings sc i.app_settings c
    | none => (sc, i.app_settings)

/-- The settings-update decision of `exec_module`: purge forces an update,
otherwise the settings diff decides. -/
def settings_update_needed (purge : Bool) (D O : SMap) : Bool :=
  purge || is_app_settings_changed D O

/-- The `to_be_updated` flag computed by `exec_module` for `state=present`:
a missing slot always creates; an existing slot updates when the tag diff,
the site-config diff, the runtime-descriptor comparison, or the settings
decision triggers. -/
def to_be_updated_calc (i : ModuleInput) (env : Env) (sc appS : SMap) : Bool :=
  match env.slotResponse with
  | none => true
  | some _ =>
    env.tagsChanged
    || is_site_config_changed sc PyAutoSwap.noneV env.oldConfig
    || linux_fx_changed sc env.oldConfig
    || settings_update_needed i.purge_app_settings appS env.oldSettings

/-- The lifecycle-change condition of `exec_module`: requested stop of a
slot not reading Stopped, requested start of a slot not reading Running,
or any restart request. -/
def slot_state_change_needed (slotState appState : String) : Bool :=
  (slotState ≠ "Stopped" && appState = "stopped")
  || (slotState ≠ "Running" && appState = "started")
  || appState = "restarted"

/-- `swap_slot` from the source: the gateway operations dispatched for one
swap request of the named slot `slotName`. The reset action issues its
dispatched reset followed by the unconditional reset of the named slot, as
written at the end of its branch. -/
def swap_slot (sw : SwapSpec) (slotName : String) : List Call :=
  match sw.action with
  | .swap =>
    match sw.target_slot with
    | none => [Call.swapSlotWithProduction]
    | some t => [Call.swapSlotSlot t]
  | .preview =>
    match sw.target_slot with
    | none => [Call.applySlotConfigToProduction]
    | some t => [Call.applySlotConfigurationSlot t]
  | .reset =>
    (match sw.target_slot with
     | none => [Call.resetProductionSlotConfig]
     | some t => [Call.resetSlotConfigurationSlot t])
    ++ [Call.resetSlotConfigurationSlot slotName]

/-- The swap block at the end of `exec_module`: a present swap request
always marks changed, returns at once in check mode, and otherwise
dispatches through `swap_slot`. Returns the outcome and the calls this
block itself issues. -/
def swap_phase (i : ModuleInput) (changed : Bool) (id : Option String) :
    Outcome × List Call :=
  match i.swap with
  | none => (.ok changed id, [])
  | some sw =>
    if i.checkMode then (.ok true id, [])
    else (.ok true id, swap_slot sw i.slotName)

/-- The lifecycle and swap tail of `exec_module` (its final `if slot:`
block): with no slot record both steps are skipped; otherwise the
lifecycle condition may mark changed, short-circuit in check mode, and
issue the state call, and then the swap block runs. -/
def lifecycle_swap_phase (i : ModuleInput) (slot : Option SlotRec)
    (changed : Bool) (id : Option String) : Outcome × List Call :=
  match slot with
  | none => (.ok changed id, [])
  | some s =>
    if slot_state_change_needed s.state i.app_state then
      if i.checkMode then (.ok true id, [])
      else
        let r := swap_phase i true id
        (r.1, Call.setSlotState i.app_state :: r.2)
    else swap_phase i changed id

/-- `exec_module` from the source, as one pure function from the module
input and the remote environment to the outcome and the gateway-call
trace. The resource group, parent web app and slot lookups always come
first; a missing parent fails; `state=present` validates and normalizes
the configuration, fetches the existing configuration and settings for an
existing slot, computes `to_be_updated`, and creates or updates unless in
check mode; `state=absent` deletes an existing slot unless in check mode;
both paths end in the lifecycle and swap tail on the surviving slot
record. -/
def exec_module (i : ModuleInput) (env : Env) : ExecResult :=
  if env.webappExists then
    let base := [Call.getResourceGroup, Call.getWebapp, Call.getSlot]
    if i.state = "present" then
      match normalize_config i env.is_linux with
      | .error m => ⟨.failed m, base⟩
      | .ok (sc, appS) =>
        let diffCalls : List Call := match env.slotResponse with
          | none => []
          | some _ => [Call.getConfiguration, Call.listAppSettings]
        if to_be_updated_calc i env sc appS then
          if i.checkMode then ⟨.ok true none, base ++ diffCalls⟩
          else
            let r := lifecycle_swap_phase i (some env.createdSlot) true
                       (some env.createdSlot.id)
            ⟨r.1, base ++ diffCalls ++ [Call.createOrUpdateSlot] ++ r.2⟩
        else
          let r := lifecycle_swap_phase i env.slotResponse false none
          ⟨r.1, base ++ diffCalls ++ r.2⟩
    else
      match env.slotResponse with
      | some _ =>
        if i.checkMode then ⟨.ok true none, base⟩
        else
          let r := lifecycle_swap_phase i env.slotResponse true none
          ⟨r.1, base ++ [Call.deleteSlot] ++ r.2⟩
      | none =>
        let r := lifecycle_swap_phase i none false none
        ⟨r.1, base ++ r.2⟩
  else
    ⟨.failed "Web app does not exist in resource group.",
     [Call.getResourceGroup, Call.getWebapp]⟩

/-- Whether a gateway call mutates remote state (everything beyond the
read-only lookups). -/
def is_mutating_call : Call → Bool
  | .getResourceGroup => false
  | .getWebapp => false
  | .getSlot => false
  | .getConfiguration => false
  | .listAppSettings => false
  | _ => true

/-- Agreement of the requested auto-swap value with the observed target:
"not specified" always agrees, "disabled" agrees with an absent target, a
truthy name agrees with an equal observed target. -/
def auto_swap_agrees (asw : PyAutoSwap) (ex : ExistingConfig) : Prop :=
  match asw with
  | .noneV => True
  | .falseV => ex.auto_swap_slot_name = none
  | .strV s => s = "" ∨ ex.auto_swap_slot_name = some s

/-- The changed flag a check-mode invocation reports: some mutation point
(create/update decision for present, delete decision for absent, lifecycle
condition, swap request) triggers. -/
def check_mode_changed (i : ModuleInput) (env : Env) : Bool :=
  if i.state = "present" then
    match normalize_config i env.is_linux with
    | .error _ => false
    | .ok (sc, appS) =>
      to_be_updated_calc i env sc appS
      || (match env.slotResponse with
          | some s => slot_state_change_needed s.state i.app_state || i.swap.isSome
          | none => false)
  else env.slotResponse.isSome

/-- An observed configuration whose runtime descriptor is the empty string
and whose other attributes are absent; against an empty patch it needs no
update. -/
def sampleConfig : ExistingConfig :=
  ⟨none, none, none, none, none, none, none, none, some "", none⟩

/-- A remote environment for concrete runs: parent exists, no slot yet. -/
def sampleEnv : Env :=
  { webappExists := true, slotResponse := none, is_linux := false,
    oldConfig := sampleConfig, oldSettings := [], tagsChanged := false,
    createdSlot := ⟨"newid", "Running"⟩ }

/-- A plain module input for concrete runs. -/
def sampleInput : ModuleInput :=
  { state := "present", checkMode := false, frameworks := none,
    container_settings := none, app_settings := [], purge_app_settings := false,
    app_state := "started", swap := none, scm_type := none, slotName := "staging" }

/-- A desired configuration that fails validation: a two-entry framework
list containing java. -/
def javaConflictInput : ModuleInput :=
  { sampleInput with
    frameworks := some [⟨"java", "8", none⟩, ⟨"node", "6.6", none⟩] }

/-- The runtime descriptor produced by a successful normalization, if
any. -/
def descriptor_of : Except String SMap → Option String
  | .ok sc => dget sc "linux_fx_version"
  | .error _ => none

/-- Claim C5: normalizing the framework list with the single entry java 8
for a linux parent succeeds and yields the runtime descriptor JAVA|8-jre8
when no nested settings are given, and TOMCAT|8.5-jre8 when the nested
settings name the Tomcat container at version 8.5. -/
theorem linux_java_descriptor :
    descriptor_of (normalize_frameworks [] [⟨"java", "8", none⟩] true)
      = some "JAVA|8-jre8"
    ∧ descriptor_of (normalize_frameworks []
        [⟨"java", "8", some ⟨"Tomcat", "8.5"⟩⟩] true)
      = some "TOMCAT|8.5-jre8" := by
  refine ⟨by decide, by decide⟩

/-- Claim C6: with purge requested, the settings-update decision is true
for every desired map D and observed map O, and the resulting
to-be-updated flag of the orchestrator is true on every existing slot,
whatever the rest of the input, environment and patch. -/
theorem purge_forces_update (D O : SMap) (i : ModuleInput) (env : Env)
    (s : SlotRec) (sc : SMap) :
    settings_update_needed true D O = true
    ∧ to_be_updated_calc { i with purge_app_settings := true }
        { env with slotResponse := some s } sc D = true := by
  refine ⟨rfl, ?_⟩
  simp [to_be_updated_calc, settings_update_needed]

/-- Claim C8: a swap request with action swap and no target slot
dispatches exactly the production-target swap operation, never the
named-slot variant. -/
theorem swap_production_dispatch (slotName : String) :
    swap_slot ⟨SwapAction.swap, none⟩ slotName = [Call.swapSlotWithProduction]
    ∧ ∀ t, Call.swapSlotSlot t ∉ swap_slot ⟨SwapAction.swap, none⟩ slotName := by
  refine ⟨rfl, ?_⟩
  intro t
  simp [swap_slot]

/-- Claim C9: with an empty desired application-settings map the settings
diff reports no change against every observed settings map, so settings
present only remotely never trigger an update by themselves. -/
theorem empty_desired_settings_no_change (O : SMap) :
    is_app_settings_changed [] O = false := rfl

/-- A field comparison of the site-config diff never triggers when the
patch value equals the observed value. -/
theorem fx_field_changed_self (v : Option String) : fx_field_changed v v = false := by
  cases v with
  | none => rfl
  | some p =>
    by_cases hp : p = "" <;> simp [fx_field_changed, hp]

/-- Claim C10: the site-config diff inspects only the five updatable
fields net_framework_version, java_version, php_version, python_version
and scm_type plus the auto-swap target; when the patch agrees with the
observed configuration on those, it reports no change whatever the
node_version, ruby_version and dotnetcore_version attributes hold. -/
theorem site_config_ignores_other_fields (sc : SMap) (asw : PyAutoSwap)
    (ex : ExistingConfig) (nv rv dv : Option String)
    (h1 : dget sc "net_framework_version" = ex.net_framework_version)
    (h2 : dget sc "java_version" = ex.java_version)
    (h3 : dget sc "php_version" = ex.php_version)
    (h4 : dget sc "python_version" = ex.python_version)
    (h5 : dget sc "scm_type" = ex.scm_type)
    (h6 : auto_swap_agrees asw ex) :
    is_site_config_changed sc asw
      { ex with node_version := nv, ruby_version := rv, dotnetcore_version := dv }
      = false := by
  obtain ⟨f1, f2, f3, f4, f5, f6, f7, f8, f9, f10⟩ := ex
  simp only at h1 h2 h3 h4 h5 h6
  simp only [is_site_config_changed]
  rw [h1, h2, h3, h4, h5]
  simp only [fx_field_changed_self, Bool.false_or]
  cases asw with
  | noneV => rfl
  | falseV =>
    simp only [auto_swap_agrees] at h6
    simp [auto_swap_changed, h6]
  | strV s =>
    simp only [auto_swap_agrees] at h6
    rcases h6 with h | h
    · simp [auto_swap_changed, h]
    · by_cases hs : s = "" <;> simp [auto_swap_changed, hs, h]

/-- Looking up a member pair of a dictionary with unique keys yields its
value. -/
theorem dget_eq_some_of_mem (m : SMap) (hm : (m.map Prod.fst).Nodup)
    {k v : String} (h : (k, v) ∈ m) : dget m k = some v := by
  induction m with
  | nil => cases h
  | cons a t ih =>
    obtain ⟨a1, a2⟩ := a
    simp only [List.map_cons, List.nodup_cons] at hm
    rcases List.mem_cons.mp h with h | h
    · obtain ⟨h1, h2⟩ := Prod.mk.injEq .. ▸ h.symm
      subst h1; subst h2
      simp [dget]
    · have hk : ¬ a1 = k := by
        intro e
        subst e
        exact hm.1 (List.mem_map_of_mem Prod.fst h)
      simpa [dget, hk] using ih hm.2 h

/-- A successful dictionary lookup comes from a member pair. -/
theorem mem_of_dget_eq_some {m : SMap} {k v : String}
    (h : dget m k = some v) : (k, v) ∈ m := by
  induction m with
  | nil => simp [dget] at h
  | cons a t ih =>
    obtain ⟨a1, a2⟩ := a
    by_cases e : a1 = k
    · subst e
      have h2 : a2 = v := by simpa [dget] using h
      subst h2
      exact List.mem_cons_self ..
    · simp only [dget, if_neg e] at h
      exact List.mem_cons_of_mem _ (ih h)

/-- A dictionary lookup fails exactly when the key is absent. -/
theorem dget_eq_none_iff (m : SMap) (k : String) :
    dget m k = none ↔ k ∉ m.map Prod.fst := by
  induction m with
  | nil => simp [dget]
  | cons a t ih =>
    obtain ⟨a1, a2⟩ := a
    by_cases e : a1 = k
    · subst e
      simp [dget]
    · simp [dget, e, ih, Ne.symm e]

/-- The per-entry predicate of the settings-diff loop is false exactly when
the observed dictionary holds a truthy value equal to the desired one. -/
theorem settings_entry_pred_false (O : SMap) (p : String × String) :
    ((match dget O p.1 with
      | none => true
      | some v => if v = "" then true else if p.2 = v then false else true) = false)
    ↔ ∃ v, dget O p.1 = some v ∧ v ≠ "" ∧ p.2 = v := by
  cases hE : dget O p.1 with
  | none => simp
  | some v => by_cases hv : v = "" <;> by_cases hp : p.2 = v <;> simp [hv, hp]

/-- Characterization of a no-change verdict of the settings diff for a
nonempty desired map: equal sizes and every desired entry matched by a
truthy observed value. -/
theorem changed_false_char (D O : SMap) (hne : D ≠ []) :
    is_app_settings_changed D O = false ↔
      (O.length = D.length ∧
       ∀ p ∈ D, ∃ v, dget O p.1 = some v ∧ v ≠ "" ∧ p.2 = v) := by
  have hDe : D.isEmpty = false := by
    cases D with
    | nil => exact absurd rfl hne
    | cons a t => rfl
  unfold is_app_settings_changed
  rw [hDe]
  by_cases hl : O.length = D.length
  · have hOe : O.isEmpty = false := by
      cases O with
      | nil =>
        exfalso
        apply hne
        have h0 : D.length = 0 := hl.symm
        exact List.length_eq_zero.mp h0
      | cons a t => rfl
    rw [if_neg (Bool.false_ne_true), if_neg (fun h => h hl), hOe,
        if_neg (Bool.false_ne_true), List.any_eq_false]
    constructor
    · intro h
      refine ⟨hl, fun p hp => ?_⟩
      have hb := h p hp
      simp only [Bool.not_eq_true] at hb
      exact (settings_entry_pred_false O p).mp hb
    · intro h p hp
      simp only [Bool.not_eq_true]
      exact (settings_entry_pred_false O p).mpr (h.2 p hp)
  · rw [if_neg (Bool.false_ne_true), if_pos (fun h => hl h)]
    simp [hl]

/-- Claim C1, amended: with purge false, a nonempty desired map D and an
observed map O whose values are all truthy, the settings diff reports no
change exactly when D and O agree as key-value maps, whatever the
insertion order of either dictionary. Without the two extra hypotheses the
equivalence fails: an empty D always reports no change, and an observed
empty-string value reports a change even on equal maps. -/
theorem is_app_settings_changed_false_iff (D O : SMap)
    (hD : (D.map Prod.fst).Nodup) (hO : (O.map Prod.fst).Nodup)
    (hne : D ≠ []) (hv : ∀ p ∈ O, p.2 ≠ "") :
    is_app_settings_changed D O = false ↔ ∀ k, dget D k = dget O k := by
  rw [changed_false_char D O hne]
  constructor
  · rintro ⟨hlen, hall⟩ k
    cases hDk : dget D k with
    | some v =>
      obtain ⟨w, hw, hwne, hvw⟩ := hall (k, v) (mem_of_dget_eq_some hDk)
      dsimp only at hw hvw
      rw [hw, hvw]
    | none =>
      have hkD : k ∉ D.map Prod.fst := (dget_eq_none_iff D k).mp hDk
      have hsub : (D.map Prod.fst).toFinset ⊆ (O.map Prod.fst).toFinset := by
        intro a ha
        rw [List.mem_toFinset] at ha ⊢
        obtain ⟨p, hp, hpa⟩ := List.mem_map.mp ha
        obtain ⟨w, hw, -, -⟩ := hall p hp
        have hmem : (p.1, w) ∈ O := mem_of_dget_eq_some hw
        rw [← hpa]
        exact List.mem_map.mpr ⟨(p.1, w), hmem, rfl⟩
      have hcard : (O.map Prod.fst).toFinset.card ≤ (D.map Prod.fst).toFinset.card := by
        rw [List.toFinset_card_of_nodup hD, List.toFinset_card_of_nodup hO]
        simp [hlen]
      have heq := Finset.eq_of_subset_of_card_le hsub hcard
      symm
      rw [dget_eq_none_iff]
      intro hkO
      apply hkD
      have hmem : k ∈ (O.map Prod.fst).toFinset := List.mem_toFinset.mpr hkO
      rw [← heq] at hmem
      exact List.mem_toFinset.mp hmem
  · intro hmap
    have hfor : ∀ p ∈ D, ∃ v, dget O p.1 = some v ∧ v ≠ "" ∧ p.2 = v := by
      intro p hp
      have h1 : dget D p.1 = some p.2 := dget_eq_some_of_mem D hD hp
      have h2 : dget O p.1 = some p.2 := by rw [← hmap]; exact h1
      exact ⟨p.2, h2, hv _ (mem_of_dget_eq_some h2), rfl⟩
    refine ⟨?_, hfor⟩
    have hkeys : (D.map Prod.fst).toFinset = (O.map Prod.fst).toFinset := by
      ext a
      simp only [List.mem_toFinset]
      constructor
      · intro ha
        obtain ⟨p, hp, hpa⟩ := List.mem_map.mp ha
        obtain ⟨w, hw, -, -⟩ := hfor p hp
        rw [← hpa]
        exact List.mem_map.mpr ⟨(p.1, w), mem_of_dget_eq_some hw, rfl⟩
      · intro ha
        obtain ⟨p, hp, hpa⟩ := List.mem_map.mp ha
        have h1 : dget O p.1 = some p.2 := dget_eq_some_of_mem O hO hp
        have h2 : dget D p.1 = some p.2 := by rw [hmap]; exact h1
        rw [← hpa]
        exact List.mem_map.mpr ⟨(p.1, p.2), mem_of_dget_eq_some h2, rfl⟩
    have hc := congrArg Finset.card hkeys
    rw [List.toFinset_card_of_nodup hD, List.toFinset_card_of_nodup hO] at hc
    simpa using hc.symm

/-- Claim C1 as stated fails on the code at two concrete inputs: an empty
desired map against a nonempty observed map reports no change although the
key sets differ, and equal singleton maps carrying an empty-string value
report a change although the maps agree. -/
theorem settings_iff_counterexample :
    (is_app_settings_changed [] [("a", "b")] = false
      ∧ ¬ ∀ k, dget [] k = dget [("a", "b")] k)
    ∧ (is_app_settings_changed [("a", "")] [("a", "")] = true
      ∧ ∀ k, dget [("a", "")] k = dget [("a", "")] k) := by
  refine ⟨⟨rfl, ?_⟩, rfl, fun k => rfl⟩
  intro h
  have hc := h "a"
  simp [dget] at hc

/-- Concrete instance of the amended claim C1: two-entry maps with the
same entries in opposite insertion orders satisfy the hypotheses, and the
equivalence holds there. -/
theorem is_app_settings_changed_false_iff_witness :
    is_app_settings_changed [("a", "1"), ("b", "2")] [("b", "2"), ("a", "1")] = false
    ↔ ∀ k, dget [("a", "1"), ("b", "2")] k = dget [("b", "2"), ("a", "1")] k :=
  is_app_settings_changed_false_iff _ _ (by decide) (by decide) (by decide)
    (by decide)

/-- Concrete instance of claim C10: a patch fixing only java_version 1.8,
agreeing with the observed value, reports no change although the observed
node_version is 6.6. -/
theorem site_config_ignores_other_fields_witness :
    is_site_config_changed [("java_version", "1.8")] PyAutoSwap.noneV
      ⟨none, some "1.8", none, none, none, some "6.6", none, none, none, none⟩
      = false :=
  site_config_ignores_other_fields [("java_version", "1.8")] PyAutoSwap.noneV
    ⟨none, some "1.8", none, none, none, none, none, none, none, none⟩
    (some "6.6") none none rfl rfl rfl rfl rfl trivial

/-- The swap dispatch never issues a lifecycle-state call. -/
theorem setSlotState_not_mem_swap_slot (sw : SwapSpec) (n st : String) :
    Call.setSlotState st ∉ swap_slot sw n := by
  obtain ⟨a, t⟩ := sw
  cases a <;> cases t <;> simp [swap_slot]

/-- The swap dispatch never issues a delete call. -/
theorem deleteSlot_not_mem_swap_slot (sw : SwapSpec) (n : String) :
    Call.deleteSlot ∉ swap_slot sw n := by
  obtain ⟨a, t⟩ := sw
  cases a <;> cases t <;> simp [swap_slot]

/-- Outcome of the swap block: ok, changed exactly when the incoming flag
is set or a swap request is present. -/
theorem swap_phase_fst (i : ModuleInput) (changed : Bool) (id : Option String) :
    (swap_phase i changed id).1 = .ok (changed || i.swap.isSome) id := by
  cases hsw : i.swap with
  | none => simp [swap_phase, hsw]
  | some sw => cases hc : i.checkMode <;> simp [swap_phase, hsw, hc]

/-- Outcome of the lifecycle and swap tail: ok, changed exactly when the
incoming flag is set, a lifecycle change is needed, or a swap request is
present on an available slot. -/
theorem lifecycle_swap_phase_fst (i : ModuleInput) (slot : Option SlotRec)
    (changed : Bool) (id : Option String) :
    (lifecycle_swap_phase i slot changed id).1 =
      .ok (changed ||
        (match slot with
         | some s => slot_state_change_needed s.state i.app_state || i.swap.isSome
         | none => false)) id := by
  cases slot with
  | none => simp [lifecycle_swap_phase]
  | some s =>
    cases hn : slot_state_change_needed s.state i.app_state with
    | true =>
      cases hc : i.checkMode with
      | true => simp [lifecycle_swap_phase, hn, hc]
      | false => simp [lifecycle_swap_phase, hn, hc, swap_phase_fst]
    | false => simp [lifecycle_swap_phase, hn, swap_phase_fst]

/-- In check mode the lifecycle and swap tail issues no call at all. -/
theorem lifecycle_swap_phase_check_calls (i : ModuleInput)
    (slot : Option SlotRec) (changed : Bool) (id : Option String)
    (h : i.checkMode = true) :
    (lifecycle_swap_phase i slot changed id).2 = [] := by
  cases slot with
  | none => rfl
  | some s =>
    cases hn : slot_state_change_needed s.state i.app_state with
    | true => simp [lifecycle_swap_phase, hn, h]
    | false =>
      cases hsw : i.swap <;> simp [lifecycle_swap_phase, swap_phase, hn, h, hsw]

/-- The lifecycle and swap tail never issues a delete call. -/
theorem deleteSlot_not_mem_lifecycle_swap_phase (i : ModuleInput)
    (slot : Option SlotRec) (changed : Bool) (id : Option String) :
    Call.deleteSlot ∉ (lifecycle_swap_phase i slot changed id).2 := by
  cases slot with
  | none => simp [lifecycle_swap_phase]
  | some s =>
    cases hn : slot_state_change_needed s.state i.app_state with
    | true =>
      cases hc : i.checkMode with
      | true => simp [lifecycle_swap_phase, hn, hc]
      | false =>
        cases hsw : i.swap with
        | none => simp [lifecycle_swap_phase, hn, hc, swap_phase, hsw]
        | some sw =>
          simp [lifecycle_swap_phase, hn, hc, swap_phase, hsw,
            deleteSlot_not_mem_swap_slot sw i.slotName]
    | false =>
      cases hsw : i.swap with
      | none => simp [lifecycle_swap_phase, hn, swap_phase, hsw]
      | some sw =>
        cases hc : i.checkMode with
        | true => simp [lifecycle_swap_phase, hn, swap_phase, hsw, hc]
        | false =>
          simp [lifecycle_swap_phase, hn, swap_phase, hsw, hc,
            deleteSlot_not_mem_swap_slot sw i.slotName]

/-- Claim C3: in check mode no mutating gateway call is ever issued, and a
successful invocation reports changed exactly when some mutation point
(delete decision, create or update decision, lifecycle condition, swap
request) triggers, with no resource id. -/
theorem check_mode_short_circuit (i : ModuleInput) (env : Env)
    (h : i.checkMode = true) :
    (exec_module i env).calls.filter is_mutating_call = []
    ∧ ∀ c id, (exec_module i env).outcome = .ok c id →
        (c = check_mode_changed i env ∧ id = none) := by
  unfold exec_module check_mode_changed
  cases hwe : env.webappExists with
  | false => simp [is_mutating_call]
  | true =>
    by_cases hst : i.state = "present"
    · rw [if_pos rfl, if_pos hst, if_pos hst]
      cases hn : normalize_config i env.is_linux with
      | error m => simp [is_mutating_call]
      | ok p =>
        obtain ⟨sc, appS⟩ := p
        cases htbu : to_be_updated_calc i env sc appS with
        | true =>
          cases hsr : env.slotResponse with
          | none => simp [h, htbu, hsr, is_mutating_call]
          | some s => simp [h, htbu, hsr, is_mutating_call]
        | false =>
          cases hsr : env.slotResponse with
          | none => simp [to_be_updated_calc, hsr] at htbu
          | some s =>
            dsimp only
            rw [htbu]
            simp only [Bool.false_eq_true, if_false]
            constructor
            · rw [lifecycle_swap_phase_check_calls i (some s) false none h]
              decide
            · intro c id hok
              rw [lifecycle_swap_phase_fst] at hok
              simp only [Outcome.ok.injEq] at hok
              refine ⟨?_, hok.2.symm⟩
              rw [← hok.1]
    · rw [if_pos rfl, if_neg hst, if_neg hst]
      cases hsr : env.slotResponse with
      | some s => simp [h, is_mutating_call]
      | none =>
        constructor
        · simp [lifecycle_swap_phase, is_mutating_call]
        · intro c id hok
          simp only [lifecycle_swap_phase, Outcome.ok.injEq] at hok
          exact ⟨hok.1.symm, hok.2.symm⟩

/-- Concrete instance of claim C3: a check-mode absent request on an
existing slot issues no mutating call. -/
theorem check_mode_short_circuit_witness :
    (exec_module { sampleInput with checkMode := true, state := "absent" }
      { sampleEnv with slotResponse := some ⟨"sid", "Running"⟩ }).calls.filter
        is_mutating_call = [] :=
  (check_mode_short_circuit
    { sampleInput with checkMode := true, state := "absent" }
    { sampleEnv with slotResponse := some ⟨"sid", "Running"⟩ } rfl).1

/-- The lifecycle and swap tail never fails. -/
theorem lifecycle_swap_phase_ne_failed (i : ModuleInput)
    (slot : Option SlotRec) (changed : Bool) (id : Option String)
    (m : String) : (lifecycle_swap_phase i slot changed id).1 ≠ .failed m := by
  rw [lifecycle_swap_phase_fst]
  simp

/-- Claim C2, amended: a fatal failure (validation of the desired
configuration, or a missing parent application) is surfaced before any
mutating gateway call: a failed invocation has issued lookup calls only.
The read-only lookups themselves do precede validation, which is what
falsifies the claim as stated. -/
theorem failure_before_mutation (i : ModuleInput) (env : Env) (m : String)
    (h : (exec_module i env).outcome = .failed m) :
    (exec_module i env).calls.filter is_mutating_call = [] := by
  unfold exec_module at h ⊢
  cases hwe : env.webappExists with
  | false => simp [is_mutating_call]
  | true =>
    rw [hwe] at h
    rw [if_pos rfl] at h ⊢
    by_cases hst : i.state = "present"
    · rw [if_pos hst] at h ⊢
      cases hn : normalize_config i env.is_linux with
      | error msg => simp [is_mutating_call]
      | ok p =>
        obtain ⟨sc, appS⟩ := p
        rw [hn] at h
        dsimp only at h
        exfalso
        cases htbu : to_be_updated_calc i env sc appS with
        | true =>
          rw [htbu] at h
          cases hc : i.checkMode with
          | true => rw [hc] at h; simp at h
          | false =>
            rw [hc] at h
            simp only [Bool.false_eq_true, if_false] at h
            exact lifecycle_swap_phase_ne_failed i (some env.createdSlot) true
              (some env.createdSlot.id) m h
        | false =>
          rw [htbu] at h
          simp only [Bool.false_eq_true, if_false] at h
          exact lifecycle_swap_phase_ne_failed i env.slotResponse false none m h
    · rw [if_neg hst] at h ⊢
      exfalso
      cases hsr : env.slotResponse with
      | some s =>
        rw [hsr] at h
        dsimp only at h
        cases hc : i.checkMode with
        | true => rw [hc] at h; simp at h
        | false =>
          rw [hc] at h
          simp only [Bool.false_eq_true, if_false] at h
          exact lifecycle_swap_phase_ne_failed i (some s) true none m h
      | none =>
        rw [hsr] at h
        dsimp only at h
        exact lifecycle_swap_phase_ne_failed i none false none m h

/-- Claim C2 as stated fails on the code: an invocation whose framework
list fails validation (two entries including java) has already issued the
resource group, web app and slot lookup calls. -/
theorem validation_after_lookup_counterexample :
    (exec_module javaConflictInput sampleEnv).outcome
      = .failed "Java is mutually exclusive with other frameworks."
    ∧ Call.getWebapp ∈ (exec_module javaConflictInput sampleEnv).calls := by
  exact ⟨by decide, by decide⟩

/-- Concrete instance of the amended claim C2: the validation-failing
invocation has issued no mutating call. -/
theorem failure_before_mutation_witness :
    (exec_module javaConflictInput sampleEnv).outcome
      = .failed "Java is mutually exclusive with other frameworks."
    ∧ (exec_module javaConflictInput sampleEnv).calls.filter
        is_mutating_call = [] :=
  ⟨by decide, failure_before_mutation javaConflictInput sampleEnv
    "Java is mutually exclusive with other frameworks." (by decide)⟩

/-- Claim C4: on an available slot record outside check mode, a restart
request always issues the restart call and reports changed; a stop request
issues no lifecycle call exactly when the observed state reads Stopped; a
start request issues none exactly when it reads Running. -/
theorem lifecycle_state_semantics (i : ModuleInput) (s : SlotRec)
    (c0 : Bool) (id : Option String) (hc : i.checkMode = false) :
    (i.app_state = "restarted" →
      Call.setSlotState "restarted" ∈ (lifecycle_swap_phase i (some s) c0 id).2
      ∧ (lifecycle_swap_phase i (some s) c0 id).1 = .ok true id)
    ∧ (i.app_state = "stopped" →
      ((∀ st, Call.setSlotState st ∉ (lifecycle_swap_phase i (some s) c0 id).2)
        ↔ s.state = "Stopped"))
    ∧ (i.app_state = "started" →
      ((∀ st, Call.setSlotState st ∉ (lifecycle_swap_phase i (some s) c0 id).2)
        ↔ s.state = "Running")) := by
  refine ⟨?_, ?_, ?_⟩
  · intro hr
    have hn : slot_state_change_needed s.state "restarted" = true := by
      simp [slot_state_change_needed]
    constructor
    · simp [lifecycle_swap_phase, hn, hc, hr]
    · rw [lifecycle_swap_phase_fst]
      simp [hr, hn]
  · intro hs2
    constructor
    · intro hall
      by_contra hne
      have hn : slot_state_change_needed s.state i.app_state = true := by
        simp [slot_state_change_needed, hs2, hne]
      apply hall i.app_state
      simp [lifecycle_swap_phase, hn, hc]
    · intro hstop st
      have hn : slot_state_change_needed s.state i.app_state = false := by
        rw [hs2, hstop]; decide
      simp only [lifecycle_swap_phase, hn, Bool.false_eq_true, if_false]
      cases hsw : i.swap with
      | none => simp [swap_phase, hsw]
      | some sw =>
        simp only [swap_phase, hsw, hc, Bool.false_eq_true, if_false]
        exact setSlotState_not_mem_swap_slot sw i.slotName st
  · intro hs2
    constructor
    · intro hall
      by_contra hne
      have hn : slot_state_change_needed s.state i.app_state = true := by
        simp [slot_state_change_needed, hs2, hne]
      apply hall i.app_state
      simp [lifecycle_swap_phase, hn, hc]
    · intro hrun st
      have hn : slot_state_change_needed s.state i.app_state = false := by
        rw [hs2, hrun]; decide
      simp only [lifecycle_swap_phase, hn, Bool.false_eq_true, if_false]
      cases hsw : i.swap with
      | none => simp [swap_phase, hsw]
      | some sw =>
        simp only [swap_phase, hsw, hc, Bool.false_eq_true, if_false]
        exact setSlotState_not_mem_swap_slot sw i.slotName st

/-- Concrete instance of claim C4: a restart request on a running slot
outside check mode issues the restart call. -/
theorem lifecycle_state_semantics_witness :
    Call.setSlotState "restarted" ∈
      (lifecycle_swap_phase { sampleInput with app_state := "restarted" }
        (some ⟨"sid", "Running"⟩) false none).2 :=
  ((lifecycle_state_semantics { sampleInput with app_state := "restarted" }
    ⟨"sid", "Running"⟩ false none rfl).1 rfl).1

/-- Claim C7: outside check mode, an absent request on a nonexistent slot
reports no change and issues no delete call; on an existing slot it
reports changed and issues exactly one delete call. -/
theorem absent_state_semantics (i : ModuleInput) (env : Env)
    (h1 : i.state = "absent") (h2 : i.checkMode = false)
    (h3 : env.webappExists = true) :
    (env.slotResponse = none →
      (exec_module i env).outcome = .ok false none
      ∧ Call.deleteSlot ∉ (exec_module i env).calls)
    ∧ (∀ s, env.slotResponse = some s →
      (exec_module i env).outcome = .ok true none
      ∧ (exec_module i env).calls.count Call.deleteSlot = 1) := by
  have hst : ¬ i.state = "present" := by rw [h1]; decide
  unfold exec_module
  rw [h3, if_pos rfl, if_neg hst]
  constructor
  · intro hsr
    rw [hsr]
    refine ⟨rfl, ?_⟩
    simp [lifecycle_swap_phase]
  · intro s hsr
    rw [hsr, h2]
    simp only [Bool.false_eq_true, if_false]
    constructor
    · rw [lifecycle_swap_phase_fst]
      simp
    · have hnot := deleteSlot_not_mem_lifecycle_swap_phase i (some s) true none
      rw [List.count_append, List.count_append, List.count_eq_zero.mpr hnot]
      decide

/-- Concrete instance of claim C7: deleting an existing stopped slot
reports changed with exactly one delete call. -/
theorem absent_state_semantics_witness :
    (exec_module { sampleInput with state := "absent" }
      { sampleEnv with slotResponse := some ⟨"sid", "Stopped"⟩ }).outcome
        = .ok true none
    ∧ (exec_module { sampleInput with state := "absent" }
      { sampleEnv with slotResponse := some ⟨"sid", "Stopped"⟩ }).calls.count
        Call.deleteSlot = 1 :=
  (absent_state_semantics { sampleInput with state := "absent" }
    { sampleEnv with slotResponse := some ⟨"sid", "Stopped"⟩ }
    rfl rfl rfl).2 ⟨"sid", "Stopped"⟩ rfl

end WebAppSlot
